import Mathlib

/-!
Verification of the audio-source subsystem of a Discord DJ bot.

The Python sources (`src/audio_device.py`, `src/audio_sources.py`,
`src/audio_source_factory.py`, `src/stream_reader.py`, `src/bot.py`) are
shallowly embedded below.  Python strings are modelled as Lean `String`
(a list of unicode code points); the handful of Python `str` methods the
code uses (`lower`, `startswith`, `in`, `replace`, `split`, `strip`,
decimal formatting and `int()` parsing) are modelled by explicit
executable functions over `String.data`.  External effects (the
`pyaudiowpatch` capture library, `ffmpeg`/`arecord` subprocess runs, the
two regular-expression searches, the Discord voice client and the aiohttp
session) are modelled by an explicit environment record threaded through
the embedded functions; a single environment is used for a whole
call so that re-enumeration within one factory call is consistent,
exactly as one process observing an unchanged machine.
-/

/-! ## Python string model -/

/-- Models Python `text.startswith(pat)` at the character-list level:
returns `some rem` when `pat` is an initial segment of `l` and `rem` is
the rest, `none` otherwise. -/
def stripBegin : List Char → List Char → Option (List Char)
  | [], l => some l
  | _ :: _, [] => none
  | p :: ps, c :: cs => if p == c then stripBegin ps cs else none

/-- Models Python `s.startswith(pat)`. -/
def pyStartswith (s pat : String) : Bool :=
  (stripBegin pat.data s.data).isSome

/-- Character-list core of Python's substring test. -/
def charsHave (pat : List Char) : List Char → Bool
  | [] => pat.isEmpty
  | l@(_ :: rest) => (stripBegin pat l).isSome || charsHave pat rest

/-- Models Python `pat in s` (substring containment test). -/
def pyIn (pat s : String) : Bool :=
  charsHave pat.data s.data

/-- The substring-containment property itself (used to state the
specification's "the description contains the device name / URL"). -/
def strContainsSub (s pat : String) : Prop :=
  ∃ a b : List Char, s.data = a ++ pat.data ++ b

/-- Fuelled core of Python `s.replace(old, new)` (replace all
non-overlapping occurrences, scanning left to right).  The fuel argument
makes the recursion structural; `replChars` always supplies adequate
fuel, namely the length of the text. -/
def replCharsAux (pat rep : List Char) : Nat → List Char → List Char
  | _, [] => []
  | 0, l => l
  | fuel + 1, c :: rest =>
    match stripBegin pat (c :: rest), pat with
    | some rem, _ :: _ => rep ++ replCharsAux pat rep fuel rem
    | _, _ => c :: replCharsAux pat rep fuel rest

/-- Models Python `s.replace(old, new)`. -/
def pyReplace (s old new : String) : String :=
  ⟨replCharsAux old.data new.data s.data.length s.data⟩

/-- Fuelled core of Python `s.split(sep)` for a non-empty separator.
With fuel equal to the length of the text the recursion mirrors the
scan Python performs. -/
def splitCharsAux (sep : List Char) : Nat → List Char → List (List Char)
  | _, [] => [[]]
  | 0, l => [l]
  | fuel + 1, c :: rest =>
    match stripBegin sep (c :: rest), sep with
    | some rem, _ :: _ => [] :: splitCharsAux sep fuel rem
    | _, _ =>
      match splitCharsAux sep fuel rest with
      | [] => [[c]]
      | h :: t => (c :: h) :: t

/-- Models Python `s.split(sep)` (non-empty separator). -/
def pySplit (s sep : String) : List String :=
  (splitCharsAux sep.data s.data.length s.data).map fun l => ⟨l⟩

/-- Models Python `s.strip()` (drop leading and trailing whitespace). -/
def pyStrip (s : String) : String :=
  ⟨((s.data.dropWhile Char.isWhitespace).reverse.dropWhile Char.isWhitespace).reverse⟩

/-- Models Python `s.lower()` (adequate for the ASCII tags and device
names the code compares). -/
def pyLower (s : String) : String :=
  ⟨s.data.map Char.toLower⟩

/-! ## Decimal formatting and parsing (Python `str(n)` / `int(s)`) -/

/-- Little-endian decimal digits of `n`; the first argument is fuel
(adequate whenever `n ≤ fuel`), keeping the recursion structural. -/
def natDigitsRevAux : Nat → Nat → List Nat
  | 0, _ => []
  | _, 0 => []
  | fuel + 1, n + 1 => (n + 1) % 10 :: natDigitsRevAux fuel ((n + 1) / 10)

/-- Little-endian decimal digits of `n` (empty for `0`). -/
def natDigitsRev (n : Nat) : List Nat := natDigitsRevAux n n

/-- Models Python `str(n)` for a non-negative integer (as produced by
the f-strings `f"wasapi:{i}"`, `f":{device_index - 1}"` and the error
message interpolations). -/
def pyNatStr (n : Nat) : String :=
  if n = 0 then "0" else ⟨((natDigitsRev n).map Nat.digitChar).reverse⟩

/-- Numeric value of a big-endian digit list. -/
def valFold (l : List Nat) : Nat :=
  l.foldl (fun acc d => acc * 10 + d) 0

/-- Numeric value denoted by a list of decimal digit characters. -/
def parseDigitsVal (l : List Char) : Nat :=
  l.foldl (fun acc c => acc * 10 + (c.toNat - 48)) 0

/-- Models Python `int(s)` on the strings this code base feeds to it:
all-digit strings succeed, anything else raises `ValueError`
(represented as `none`). -/
def pyIntParse (s : String) : Option Nat :=
  if s.data ≠ [] ∧ s.data.all Char.isDigit then some (parseDigitsVal s.data) else none

/-! ## Data model (`src/audio_device.py`) -/

/-- Host operating system as reported by `platform.system().lower()`. -/
inductive Platform
  | windows
  | linux
  | darwin
  | other (name : String)
deriving DecidableEq

/-- One entry of the `pyaudiowpatch` device table, as returned by
`p.get_device_info_by_index(i)` (the fields this code reads). -/
structure PyDeviceInfo where
  name : String
  defaultSampleRate : Nat
  maxInputChannels : Nat
  isLoopbackDevice : Bool
deriving DecidableEq

/-- Outcome of `p.get_device_info_by_index(i)` for one index: the info
dictionary, or an exception. -/
inductive PyProbe
  | ok (info : PyDeviceInfo)
  | raises
deriving DecidableEq

/-- Outcome of one external tool invocation (`subprocess.run`): the
captured text output, `FileNotFoundError` (tool binary missing),
`subprocess.TimeoutExpired`, or some other exception. -/
inductive SubprocResult
  | ok (text : String)
  | toolMissing
  | timedOut
  | raises
deriving DecidableEq

/-- Environment: everything outside the embedded code that its control
flow can observe during one enumeration/factory call.  `pyaudio` is
`none` when importing/initialising `pyaudiowpatch` fails, otherwise the
per-index probe outcomes.  `audioMatch` models the regular expression
search `'"([^"]+)"\s*\(audio\)'` (the captured group, if any);
`avfMatch` models `'\[.*?\]\s+\[\d+\]\s+(.+)'` likewise. -/
structure Env where
  platform : Platform
  pyaudio : Option (List PyProbe)
  dshow : SubprocResult
  audioMatch : String → Option String
  pulse : SubprocResult
  alsa : SubprocResult
  avf : SubprocResult
  avfMatch : String → Option String

/-- `AudioDevice` dataclass. -/
structure AudioDevice where
  index : Nat
  name : String
  device_id : String
  device_type : String
deriving DecidableEq

/-- The two Python exception classes this code raises. -/
inductive PyError
  | valueError (msg : String)
  | runtimeError (msg : String)
deriving DecidableEq

/-! ## Device enumeration (`src/audio_device.py`) -/

/-- The WASAPI-loopback part of `_enumerate_windows_devices`: walk the
`pyaudiowpatch` table starting at PyAudio index `i` with running device
index `di`, keeping loopback entries.  Returns the devices, the next
device index, and whether an exception aborted the walk (the `except`
clause swallows it, keeping the devices appended so far). -/
def scanLoopback : List PyProbe → Nat → Nat → List AudioDevice × Nat × Bool
  | [], _, di => ([], di, false)
  | .raises :: _, _, di => ([], di, true)
  | .ok info :: rest, i, di =>
    if info.isLoopbackDevice then
      let displayName := pyReplace info.name " [Loopback]" ""
      let d : AudioDevice :=
        { index := di
          name := displayName ++ " [System Audio Output]"
          device_id := "wasapi:" ++ pyNatStr i
          device_type := "output" }
      let r := scanLoopback rest (i + 1) (di + 1)
      (d :: r.1, r.2)
    else scanLoopback rest (i + 1) di

/-- The loopback half of the Windows enumeration including the
`ImportError` / initialisation-failure case (empty contribution). -/
def loopbackHalf (env : Env) : List AudioDevice × Nat × Bool :=
  match env.pyaudio with
  | none => ([], 1, true)
  | some table => scanLoopback table 0 1

/-- The DirectShow part of `_enumerate_windows_devices`: scan the lines
of ffmpeg's stderr, keeping lines that contain `(audio)` and a quote and
that the regular expression matches.  Returns the devices and the next
device index. -/
def dshowScan (audioMatch : String → Option String) :
    List String → Nat → List AudioDevice × Nat
  | [], di => ([], di)
  | line :: rest, di =>
    if pyIn "(audio)" line && pyIn "\"" line then
      match audioMatch line with
      | some deviceName =>
        let isStereoMix :=
          pyIn "stereo mix" (pyLower deviceName) ||
          pyIn "wave out" (pyLower deviceName) ||
          pyIn "what u hear" (pyLower deviceName)
        let d : AudioDevice :=
          { index := di
            name := deviceName ++ (if isStereoMix then " [System Audio]" else " [Microphone]")
            device_id := "dshow:audio=" ++ deviceName
            device_type := if isStereoMix then "output" else "input" }
        let r := dshowScan audioMatch rest (di + 1)
        (d :: r.1, r.2)
      | none => dshowScan audioMatch rest di
    else dshowScan audioMatch rest di

/-- Message of the fatal `RuntimeError` raised when the ffmpeg binary is
missing. -/
def ffmpegMissingMsg : String :=
  "FFmpeg not found. Please install FFmpeg and add it to your PATH."

/-- `_enumerate_windows_devices`.  The loopback half's failures are
swallowed; for the DirectShow subprocess, `FileNotFoundError` is fatal,
while a timeout or any other exception is logged and swallowed. -/
def enumWindows (env : Env) : Except PyError (List AudioDevice) :=
  let lb := loopbackHalf env
  match env.dshow with
  | .ok text => .ok (lb.1 ++ (dshowScan env.audioMatch (pySplit text "\n") lb.2.1).1)
  | .toolMissing => .error (.runtimeError ffmpegMissingMsg)
  | .timedOut => .ok lb.1
  | .raises => .ok lb.1

/-- PulseAudio part of `_enumerate_linux_devices`: lines containing
`"* "` yield a device named `line.split("* ")[1].strip()`. -/
def pulseScan : List String → Nat → List AudioDevice × Nat
  | [], di => ([], di)
  | line :: rest, di =>
    if pyIn "* " line then
      let deviceName := pyStrip ((pySplit line "* ").getD 1 "")
      let d : AudioDevice :=
        { index := di, name := deviceName, device_id := deviceName, device_type := "input" }
      let r := pulseScan rest (di + 1)
      (d :: r.1, r.2)
    else pulseScan rest di

/-- ALSA fallback part of `_enumerate_linux_devices`: each stripped
non-empty line (never starting with a space after stripping) yields a
device. -/
def alsaScan : List String → Nat → List AudioDevice × Nat
  | [], di => ([], di)
  | line :: rest, di =>
    if pyStrip line ≠ "" ∧ pyStartswith (pyStrip line) " " = false then
      let d : AudioDevice :=
        { index := di
          name := pyStrip line
          device_id := pyStrip line
          device_type := "input" }
      let r := alsaScan rest (di + 1)
      (d :: r.1, r.2)
    else alsaScan rest di

/-- Message of the fatal error when Linux audio tooling is missing. -/
def linuxToolsMissingMsg : String :=
  "FFmpeg or audio tools not found. Please install FFmpeg and ALSA/PulseAudio utilities."

/-- Message of the fatal wrapper error on any other Linux enumeration
exception (the Python message also interpolates the cause). -/
def linuxEnumFailedMsg : String :=
  "Failed to enumerate Linux audio devices"

/-- `_enumerate_linux_devices`: PulseAudio first; if it yields nothing,
the ALSA listing continues with the same running index.  Both
subprocesses run inside one `try`: a missing tool is fatal, and any
other exception (timeouts included) is re-raised as `RuntimeError`. -/
def enumLinux (env : Env) : Except PyError (List AudioDevice) :=
  match env.pulse with
  | .ok text =>
    let p := pulseScan (pySplit text "\n") 1
    if p.1.isEmpty then
      match env.alsa with
      | .ok text2 => .ok (alsaScan (pySplit text2 "\n") p.2).1
      | .toolMissing => .error (.runtimeError linuxToolsMissingMsg)
      | .timedOut => .error (.runtimeError linuxEnumFailedMsg)
      | .raises => .error (.runtimeError linuxEnumFailedMsg)
    else .ok p.1
  | .toolMissing => .error (.runtimeError linuxToolsMissingMsg)
  | .timedOut => .error (.runtimeError linuxEnumFailedMsg)
  | .raises => .error (.runtimeError linuxEnumFailedMsg)

/-- Message of the fatal wrapper error on any other macOS enumeration
exception (the Python message also interpolates the cause). -/
def macosEnumFailedMsg : String :=
  "Failed to enumerate macOS audio devices"

/-- AVFoundation part of `_enumerate_macos_devices`: a state machine
over the stderr lines, tracking whether the scan is inside the audio
section; matched lines yield devices with identifier `":{index - 1}"`. -/
def avfScan (avfMatch : String → Option String) :
    List String → Bool → Nat → List AudioDevice × Nat
  | [], _, di => ([], di)
  | line :: rest, inAudio, di =>
    if pyIn "AVFoundation audio devices:" line then avfScan avfMatch rest true di
    else if pyIn "AVFoundation video devices:" line then avfScan avfMatch rest false di
    else if inAudio && pyIn "]" line then
      match avfMatch line with
      | some captured =>
        let deviceName := pyStrip captured
        let d : AudioDevice :=
          { index := di
            name := deviceName
            device_id := ":" ++ pyNatStr (di - 1)
            device_type := "input" }
        let r := avfScan avfMatch rest inAudio (di + 1)
        (d :: r.1, r.2)
      | none => avfScan avfMatch rest inAudio di
    else avfScan avfMatch rest inAudio di

/-- `_enumerate_macos_devices`. -/
def enumMacos (env : Env) : Except PyError (List AudioDevice) :=
  match env.avf with
  | .ok text => .ok (avfScan env.avfMatch (pySplit text "\n") false 1).1
  | .toolMissing => .error (.runtimeError ffmpegMissingMsg)
  | .timedOut => .error (.runtimeError macosEnumFailedMsg)
  | .raises => .error (.runtimeError macosEnumFailedMsg)

/-- `AudioDeviceEnumerator.enumerate_devices`: dispatch on the host
operating system. -/
def enumerate_devices (env : Env) : Except PyError (List AudioDevice) :=
  match env.platform with
  | .windows => enumWindows env
  | .linux => enumLinux env
  | .darwin => enumMacos env
  | .other s => .error (.runtimeError ("Unsupported operating system: " ++ s))

/-- `AudioDeviceEnumerator.get_device_by_index`: re-runs the full
enumeration and linearly scans for a matching index. -/
def get_device_by_index (env : Env) (index : Nat) : Except PyError (Option AudioDevice) :=
  match enumerate_devices env with
  | .ok devices => .ok (devices.find? fun device => device.index == index)
  | .error e => .error e

/-! ## Audio sources (`src/audio_sources.py`) -/

/-- `LocalAudioSource` state after `__init__`. -/
structure LocalAudioSource where
  device : AudioDevice
  sample_rate : Nat
  bitrate : Nat
deriving DecidableEq

/-- `IcecastAudioSource` state after `__init__`. -/
structure IcecastAudioSource where
  url : String
  bitrate : Nat
deriving DecidableEq

/-- `URLAudioSource` state after `__init__`. -/
structure URLAudioSource where
  url : String
  bitrate : Nat
deriving DecidableEq

/-- `WASAPILoopbackAudioSource` state after `__init__` (the probed
device name, sample rate and channel count included). -/
structure WASAPILoopbackAudioSource where
  device_index : Nat
  sample_rate : Nat
  bitrate : Nat
  device_name : String
  device_sample_rate : Nat
  device_channels : Nat
deriving DecidableEq

/-- `p.get_device_info_by_index(i)` as the constructor's probe sees it:
`none` when the library import fails, the index is out of range, or the
call raises. -/
def probeDeviceInfo (env : Env) (i : Nat) : Option PyDeviceInfo :=
  match env.pyaudio with
  | none => none
  | some table =>
    match table[i]? with
    | some (.ok info) => some info
    | some .raises => none
    | none => none

/-- `WASAPILoopbackAudioSource.__init__`: `device_name` is preset to
`"Unknown Device"`; the probe, when it succeeds, supplies the name
(with `" [Loopback]"` removed), sample rate and channel count, and any
failure is swallowed with the 48000 Hz / 2 channel fallback. -/
def mkWASAPILoopbackAudioSource (env : Env) (device_index sample_rate bitrate : Nat) :
    WASAPILoopbackAudioSource :=
  match probeDeviceInfo env device_index with
  | some info =>
    { device_index, sample_rate, bitrate
      device_name := pyReplace info.name " [Loopback]" ""
      device_sample_rate := info.defaultSampleRate
      device_channels := info.maxInputChannels }
  | none =>
    { device_index, sample_rate, bitrate
      device_name := "Unknown Device"
      device_sample_rate := 48000
      device_channels := 2 }

/-- The closed union of source variants the factory can return. -/
inductive AudioSource
  | localDevice (s : LocalAudioSource)
  | icecast (s : IcecastAudioSource)
  | urlStream (s : URLAudioSource)
  | wasapiLoopback (s : WASAPILoopbackAudioSource)
deriving DecidableEq

/-- The four `get_description` implementations. -/
def AudioSource.get_description : AudioSource → String
  | .localDevice s => "Local Device: " ++ s.device.name
  | .icecast s => "Icecast Stream: " ++ s.url
  | .urlStream s => "URL Stream: " ++ s.url
  | .wasapiLoopback s => "System Audio: " ++ s.device_name

/-! ## Factory (`src/audio_source_factory.py`) -/

/-- The `config` dictionary: the keys `create_from_config` reads,
each possibly absent. -/
structure ConfigBag where
  device_index : Option Nat := none
  sample_rate : Option Nat := none
  bitrate : Option Nat := none
  url : Option String := none
deriving DecidableEq

/-- Message of the `ValueError` for a stale/unknown device index. -/
def noDeviceMsg (device_index : Nat) : String :=
  "No audio device found with index " ++ pyNatStr device_index

/-- `AudioSourceFactory.create_local_source_by_index`: resolve the
index via a fresh enumeration; an identifier starting with `"wasapi:"`
selects the loopback variant (parsing the PyAudio sub-index out of the
identifier with `int(device_id.split(":")[1])`), anything else the plain
local variant. -/
def create_local_source_by_index (env : Env) (device_index sample_rate bitrate : Nat) :
    Except PyError AudioSource :=
  match get_device_by_index env device_index with
  | .error e => .error e
  | .ok none => .error (.valueError (noDeviceMsg device_index))
  | .ok (some device) =>
    if pyStartswith device.device_id "wasapi:" then
      match pyIntParse ((pySplit device.device_id ":").getD 1 "") with
      | some pyaudioIndex =>
        .ok (.wasapiLoopback (mkWASAPILoopbackAudioSource env pyaudioIndex sample_rate bitrate))
      | none => .error (.valueError "invalid literal for int() with base 10")
    else
      .ok (.localDevice { device, sample_rate, bitrate })

/-- `AudioSourceFactory.create_from_config`: lower-case the type tag,
dispatch, validate the per-type required field, and default
`sample_rate`/`bitrate` from the config bag. -/
def create_from_config (env : Env) (source_type : String) (config : ConfigBag) :
    Except PyError AudioSource :=
  let source_type_lower := pyLower source_type
  if source_type_lower = "local" then
    match config.device_index with
    | none => .error (.valueError "Local audio source requires \x27device_index\x27 in config")
    | some device_index =>
      create_local_source_by_index env device_index
        (config.sample_rate.getD 48000) (config.bitrate.getD 128)
  else if source_type_lower = "icecast" then
    match config.url with
    | none => .error (.valueError "Icecast audio source requires \x27url\x27 in config")
    | some url => .ok (.icecast { url, bitrate := config.bitrate.getD 128 })
  else if source_type_lower = "url" then
    match config.url with
    | none => .error (.valueError "URL audio source requires \x27url\x27 in config")
    | some url => .ok (.urlStream { url, bitrate := config.bitrate.getD 128 })
  else
    .error (.valueError ("Unknown audio source type: " ++ source_type ++
      ". Expected \x27local\x27, \x27icecast\x27, or \x27url\x27"))

/-! ## Loopback playable handle (`WASAPILoopbackPCMAudio`) -/

/-- `int(self._sample_rate * 0.02)`: the number of device frames needed
for 20 ms.  For the sample rates a sound device reports this equals
`rate * 2 / 100` in integer arithmetic. -/
def framesNeeded (sample_rate : Nat) : Nat :=
  sample_rate * 2 / 100

/-- Number of output frames produced by one `audioop.ratecv` call with
fresh (`None`) converter state on `n` input frames: CPython's converter
reduces the rate pair by their gcd and emits `(n - 1) * out / in + 1`
frames, carrying the fractional remainder in the state object that this
code discards after every call. -/
def ratecvFrames (n inrate outrate : Nat) : Nat :=
  ((n - 1) * (outrate / Nat.gcd inrate outrate)) / (inrate / Nat.gcd inrate outrate) + 1

/-- Byte length returned by `WASAPILoopbackPCMAudio.read()`.  The PCM
content is opaque captured audio; its length is the observable the
specification constrains.  An inactive/unopened stream or any exception
yields empty bytes; otherwise the stream read returns `frames_needed`
frames of `channels` 16-bit samples, `audioop.ratecv` converts the rate
when the device is not at 48 kHz, and `audioop.tostereo` doubles a mono
stream. -/
def wasapiReadLength (device_sample_rate device_channels : Nat)
    (streamActive readOk : Bool) : Nat :=
  if !streamActive then 0
  else if !readOk then 0
  else
    let frames_needed := framesNeeded device_sample_rate
    let outFrames :=
      if device_sample_rate ≠ 48000 then ratecvFrames frames_needed device_sample_rate 48000
      else frames_needed
    let outBytes := outFrames * device_channels * 2
    if device_channels = 1 then outBytes * 2 else outBytes

/-! ## Loopback cleanup (`WASAPILoopbackPCMAudio.cleanup`,
`WASAPILoopbackAudioSource.cleanup`) -/

/-- Observable state of a `WASAPILoopbackPCMAudio` handle for the
cleanup path: whether `self._stream` / `self._pyaudio` are set (truthy),
plus counters of the release calls issued so far
(`stop_stream`, `close`, `terminate`). -/
structure PCMState where
  hasStream : Bool
  hasPyaudio : Bool
  stopCalls : Nat
  closeCalls : Nat
  terminateCalls : Nat
deriving DecidableEq

/-- State after `__init__`: the constructor opens the stream eagerly,
so both fields are set and no release call has happened. -/
def pcmInit : PCMState :=
  { hasStream := true, hasPyaudio := true, stopCalls := 0, closeCalls := 0, terminateCalls := 0 }

/-- `WASAPILoopbackPCMAudio.cleanup`: if `self._stream` is set, call
`stop_stream()` and `close()`; if `self._pyaudio` is set, call
`terminate()`.  Neither field is cleared afterwards. -/
def pcmCleanup (s : PCMState) : PCMState :=
  let s1 :=
    if s.hasStream then
      { s with stopCalls := s.stopCalls + 1, closeCalls := s.closeCalls + 1 }
    else s
  if s1.hasPyaudio then { s1 with terminateCalls := s1.terminateCalls + 1 } else s1

/-- `n` consecutive `cleanup()` calls. -/
def pcmCleanupN : Nat → PCMState → PCMState
  | 0, s => s
  | n + 1, s => pcmCleanupN n (pcmCleanup s)

/-- `WASAPILoopbackAudioSource.cleanup`: only logs; no state change and
no release call. -/
def wasapiSourceCleanup (s : WASAPILoopbackAudioSource) : WASAPILoopbackAudioSource :=
  s

/-! ## Stream reader (`src/stream_reader.py`) -/

/-- Observable state of an `IcecastStreamReader`: whether `_session`
and `_response` are set, the `_is_connected` flag, and counters of the
release calls issued (`response.close()`, `session.close()`). -/
structure SRState where
  session : Bool
  response : Bool
  isConn : Bool
  respCloseCalls : Nat
  sessCloseCalls : Nat
deriving DecidableEq

/-- State after `__init__` (before any `connect()`). -/
def srInit : SRState :=
  { session := false, response := false, isConn := false,
    respCloseCalls := 0, sessCloseCalls := 0 }

/-- `IcecastStreamReader.is_connected`. -/
def sr_is_connected (s : SRState) : Bool :=
  s.isConn

/-- `IcecastStreamReader.close`: clear the flag; release and clear the
response if present; release and clear the session if present. -/
def srClose (s : SRState) : SRState :=
  let s1 := { s with isConn := false }
  let s2 :=
    if s1.response then
      { s1 with respCloseCalls := s1.respCloseCalls + 1, response := false }
    else s1
  if s2.session then
    { s2 with sessCloseCalls := s2.sessCloseCalls + 1, session := false }
  else s2

/-! ## The `play` chat command (`src/bot.py`) -/

/-- Observable state of the Discord voice client held by the bot. -/
structure VoiceState where
  connected : Bool
  playing : Bool
deriving DecidableEq

/-- External circumstances of one `play` invocation: whether the author
is a guild member, the author's voice state (`member.voice`, then
`voice.channel` name), and whether `channel.connect()` /
`create_discord_source()` would succeed (with the exception texts the
command would interpolate on failure). -/
structure PlayCtx where
  authorIsMember : Bool
  authorVoice : Option (Option String)
  connectOk : Bool
  createOk : Bool
  connectErrText : String
  createErrText : String
deriving DecidableEq

/-- Observable outcome of one `play` invocation: the messages sent via
`ctx.send` in order, whether `create_discord_source()` was invoked,
whether `voice_client.play(...)` started playback, and the voice client
afterwards. -/
structure PlayOutcome where
  messages : List String
  handleRequested : Bool
  playStarted : Bool
  voice : Option VoiceState
deriving DecidableEq

/-- Second half of the `play` handler, reached with a connected voice
client: refuse when already playing, otherwise ask the audio source for
a playable handle and start playback. -/
def playPhase (vc : VoiceState) (sent : List String) (ctx : PlayCtx)
    (description : String) : PlayOutcome :=
  if vc.playing then
    { messages := sent ++ ["Already playing audio."],
      handleRequested := false, playStarted := false, voice := some vc }
  else if ctx.createOk then
    { messages := sent ++ ["Now streaming: " ++ description],
      handleRequested := true, playStarted := true,
      voice := some { vc with playing := true } }
  else
    { messages := sent ++ ["Failed to start streaming: " ++ ctx.createErrText],
      handleRequested := true, playStarted := false, voice := some vc }

/-- Auto-join path of the `play` handler (voice client absent or not
connected). -/
def joinThenPlay (vc0 : Option VoiceState) (ctx : PlayCtx)
    (description : String) : PlayOutcome :=
  if ¬ctx.authorIsMember then
    { messages := ["This command can only be used in a server."],
      handleRequested := false, playStarted := false, voice := vc0 }
  else
    match ctx.authorVoice with
    | none =>
      { messages := ["You need to be in a voice channel to use this command."],
        handleRequested := false, playStarted := false, voice := vc0 }
    | some none =>
      { messages := ["Could not determine your voice channel."],
        handleRequested := false, playStarted := false, voice := vc0 }
    | some (some channelName) =>
      if ctx.connectOk then
        playPhase { connected := true, playing := false }
          ["Joined " ++ channelName] ctx description
      else
        { messages := ["Failed to join voice channel: " ++ ctx.connectErrText],
          handleRequested := false, playStarted := false, voice := vc0 }

/-- The `play` command handler. -/
def playCommand (vc0 : Option VoiceState) (ctx : PlayCtx)
    (description : String) : PlayOutcome :=
  match vc0 with
  | some vc => if vc.connected then playPhase vc [] ctx description else joinThenPlay vc0 ctx description
  | none => joinThenPlay vc0 ctx description

/-! ## Concrete instances for counterexamples and witnesses -/

deriving instance DecidableEq for Except

/-- A loopback device as `pyaudiowpatch` reports it. -/
def infoSpeakers : PyDeviceInfo :=
  { name := "Speakers [Loopback]", defaultSampleRate := 48000,
    maxInputChannels := 2, isLoopbackDevice := true }

/-- Windows machine with one loopback device and no DirectShow audio
devices. -/
def envLoopback : Env :=
  { platform := .windows, pyaudio := some [.ok infoSpeakers], dshow := .ok "",
    audioMatch := fun _ => none, pulse := .toolMissing, alsa := .toolMissing,
    avf := .toolMissing, avfMatch := fun _ => none }

/-- The device `envLoopback`'s enumeration yields. -/
def devSpeakers : AudioDevice :=
  { index := 1, name := "Speakers [System Audio Output]",
    device_id := "wasapi:0", device_type := "output" }

/-- Config bag selecting device index 1. -/
def cfgIdx1 : ConfigBag :=
  { device_index := some 1 }

/-- The loopback source the factory builds from `envLoopback` for
device index 1. -/
def srcSpeakers : WASAPILoopbackAudioSource :=
  { device_index := 0, sample_rate := 48000, bitrate := 128,
    device_name := "Speakers", device_sample_rate := 48000, device_channels := 2 }

/-- Windows machine whose second `pyaudiowpatch` probe raises after the
first yielded a loopback device. -/
def envPartialFail : Env :=
  { envLoopback with pyaudio := some [.ok infoSpeakers, .raises] }

/-- One ffmpeg stderr line advertising a DirectShow audio device. -/
def micLine : String :=
  "  \"Mic\" (audio)"

/-- Windows machine with one loopback device and one microphone. -/
def envTwoDevices : Env :=
  { envLoopback with
    dshow := .ok micLine
    audioMatch := fun l => if l = micLine then some "Mic" else none }

/-- The microphone `envTwoDevices`'s enumeration yields after the
loopback device. -/
def devMic : AudioDevice :=
  { index := 2, name := "Mic [Microphone]", device_id := "dshow:audio=Mic",
    device_type := "input" }

/-- Both devices of `envTwoDevices` in enumeration order. -/
def devsTwo : List AudioDevice :=
  [devSpeakers, devMic]

/-- A machine with nothing available (platform unsupported, no capture
library, no tools). -/
def envBare : Env :=
  { platform := .other "plan9", pyaudio := none, dshow := .toolMissing,
    audioMatch := fun _ => none, pulse := .toolMissing, alsa := .toolMissing,
    avf := .toolMissing, avfMatch := fun _ => none }

/-- The empty config bag. -/
def cfgEmpty : ConfigBag :=
  {}

/-! ## The examined claims, stated as predicates where a refutation is
needed -/

/-- Claim C1 as stated: for `sourceType = "local"` with a device index
present, an index absent from the current enumeration fails with the
device-not-found `ValueError`, and otherwise the returned source's
description contains the resolved device's name — for the plain and the
loopback variant alike. -/
def c1ClaimStatement : Prop :=
  ∀ (env : Env) (cfg : ConfigBag) (di : Nat) (devs : List AudioDevice),
    cfg.device_index = some di →
    enumerate_devices env = .ok devs →
    ((devs.find? fun d => d.index == di) = none →
      create_from_config env "local" cfg = .error (.valueError (noDeviceMsg di))) ∧
    (∀ dev, (devs.find? fun d => d.index == di) = some dev →
      ∃ src, create_from_config env "local" cfg = .ok src ∧
        strContainsSub (AudioSource.get_description src) dev.name)

/-- Claim C3 as stated: every loopback `read()` yields exactly one
3840-byte frame or empty bytes, for every device sample rate and
channel count. -/
def c3ClaimStatement : Prop :=
  ∀ (rate channels : Nat) (active readOk : Bool),
    wasapiReadLength rate channels active readOk = 3840 ∨
    wasapiReadLength rate channels active readOk = 0

/-- Claim C4 as stated, the refutable part: any number of consecutive
`cleanup()` calls on the loopback PCM handle releases the stream and
the capture-library handle at most once (no duplicate release).  The
modelled cleanup is a total function, so "never throws" holds of the
model by construction; what the code can violate is the single-release
guarantee. -/
def c4ClaimStatement : Prop :=
  ∀ n : Nat,
    (pcmCleanupN n pcmInit).closeCalls ≤ 1 ∧
    (pcmCleanupN n pcmInit).terminateCalls ≤ 1

/-- The error-free front of a `pyaudiowpatch` probe table. -/
def cleanPyTable (table : List PyProbe) : List PyProbe :=
  table.takeWhile fun p => match p with | .ok _ => true | .raises => false

/-- Claim C5 as stated: in the Windows pass, any loopback-half failure
leaves that half empty; a missing text-probe binary is fatal even when
the loopback half produced devices; a text-probe timeout leaves the
text-probe half empty. -/
def c5ClaimStatement : Prop :=
  ∀ env : Env, env.platform = .windows →
    ((loopbackHalf env).2.2 = true → (loopbackHalf env).1 = []) ∧
    (env.dshow = .toolMissing → enumWindows env = .error (.runtimeError ffmpegMissingMsg)) ∧
    (env.dshow = .timedOut → enumWindows env = .ok (loopbackHalf env).1)

/-- Claim C7 as stated: `create_from_config` behaves identically on a
type tag and its lower-cased form — same variant with the same fields,
or the same error. -/
def c7ClaimStatement : Prop :=
  ∀ (env : Env) (source_type : String) (config : ConfigBag),
    create_from_config env source_type config =
      create_from_config env (pyLower source_type) config

/-! # Lemmas about the string model -/

/-- Appending the pattern on the right witnesses containment. -/
theorem strContainsSub_of_append (pre s : String) : strContainsSub (pre ++ s) s :=
  ⟨pre.data, [], by simp [String.data_append]⟩

theorem stripBegin_append (p l : List Char) : stripBegin p (p ++ l) = some l := by
  induction p with
  | nil => rfl
  | cons c cs ih => simp [stripBegin, ih]

theorem pyStartswith_append (pre s : String) : pyStartswith (pre ++ s) pre = true := by
  simp [pyStartswith, String.data_append, stripBegin_append]

theorem stripBegin_cons_ne (p c : Char) (ps cs : List Char) (h : (p == c) = false) :
    stripBegin (p :: ps) (c :: cs) = none := by
  simp [stripBegin, h]

/-- DirectShow device identifiers never pass the `"wasapi:"` test. -/
theorem dshow_id_not_wasapi (nm : String) :
    pyStartswith ("dshow:audio=" ++ nm) "wasapi:" = false := by
  have h1 : ("dshow:audio=" ++ nm).data = 'd' :: ("show:audio=".data ++ nm.data) := by
    rw [String.data_append]; rfl
  have h2 : ("wasapi:" : String).data = 'w' :: "asapi:".data := rfl
  simp only [pyStartswith, h1, h2]
  rw [stripBegin_cons_ne _ _ _ _ (by decide)]
  rfl

/-! # Lemmas about decimal formatting and parsing -/

theorem natDigitsRevAux_lt10 (fuel : Nat) :
    ∀ n d, d ∈ natDigitsRevAux fuel n → d < 10 := by
  induction fuel with
  | zero => intro n d h; simp [natDigitsRevAux] at h
  | succ f ih =>
    intro n d h
    cases n with
    | zero => simp [natDigitsRevAux] at h
    | succ m =>
      simp only [natDigitsRevAux, List.mem_cons] at h
      rcases h with h | h
      · subst h; exact Nat.mod_lt _ (by omega)
      · exact ih _ _ h

theorem natDigitsRevAux_fuel_eq (f1 : Nat) :
    ∀ f2 n, n ≤ f1 → n ≤ f2 → natDigitsRevAux f1 n = natDigitsRevAux f2 n := by
  induction f1 with
  | zero =>
    intro f2 n h1 _
    have : n = 0 := by omega
    subst this
    cases f2 <;> rfl
  | succ f ih =>
    intro f2 n h1 h2
    cases n with
    | zero => cases f2 <;> rfl
    | succ m =>
      cases f2 with
      | zero => omega
      | succ g =>
        simp only [natDigitsRevAux]
        have hdiv : (m + 1) / 10 < m + 1 := Nat.div_lt_self (by omega) (by omega)
        exact congrArg _ (ih g ((m + 1) / 10) (by omega) (by omega))

theorem natDigitsRev_eq_cons (n : Nat) (h : n ≠ 0) :
    natDigitsRev n = n % 10 :: natDigitsRev (n / 10) := by
  cases n with
  | zero => exact absurd rfl h
  | succ m =>
    show natDigitsRevAux (m + 1) (m + 1) = _
    simp only [natDigitsRevAux]
    have hdiv : (m + 1) / 10 < m + 1 := Nat.div_lt_self (by omega) (by omega)
    exact congrArg _ (natDigitsRevAux_fuel_eq m ((m + 1) / 10) ((m + 1) / 10) (by omega) (by omega))

theorem valFold_append (xs : List Nat) (d : Nat) :
    valFold (xs ++ [d]) = valFold xs * 10 + d := by
  simp [valFold, List.foldl_append]

theorem valFold_natDigits (n : Nat) : valFold (natDigitsRev n).reverse = n := by
  induction n using Nat.strong_induction_on with
  | _ n ih =>
    by_cases h : n = 0
    · subst h; rfl
    · rw [natDigitsRev_eq_cons n h, List.reverse_cons, valFold_append,
        ih (n / 10) (Nat.div_lt_self (by omega) (by omega))]
      omega

theorem digitChar_val (d : Nat) (h : d < 10) :
    (Nat.digitChar d).toNat - 48 = d ∧ (Nat.digitChar d).isDigit = true := by
  interval_cases d <;> exact ⟨by decide, by decide⟩

theorem pyNatStr_digits (n : Nat) : ∀ c ∈ (pyNatStr n).data, c.isDigit = true := by
  intro c hc
  by_cases h : n = 0
  · subst h
    simp only [pyNatStr, if_pos rfl] at hc
    have : c = '0' := by simpa using hc
    subst this; decide
  · simp only [pyNatStr, if_neg h] at hc
    rw [List.mem_reverse] at hc
    obtain ⟨d, hd, rfl⟩ := List.mem_map.mp hc
    exact (digitChar_val d (natDigitsRevAux_lt10 n n d hd)).2

theorem colon_notMem_pyNatStr (n : Nat) : ':' ∉ (pyNatStr n).data := by
  intro h
  exact absurd (pyNatStr_digits n ':' h) (by decide)

theorem foldl_digits (l : List Nat) (h : ∀ d ∈ l, d < 10) :
    ∀ acc : Nat,
      List.foldl (fun a c => a * 10 + (Char.toNat c - 48)) acc (l.map Nat.digitChar) =
        List.foldl (fun a d => a * 10 + d) acc l := by
  induction l with
  | nil => intro acc; rfl
  | cons d ds ih =>
    intro acc
    simp only [List.map_cons, List.foldl_cons]
    rw [(digitChar_val d (h d (by simp))).1]
    exact ih (fun x hx => h x (by simp [hx])) _

theorem pyIntParse_pyNatStr (n : Nat) : pyIntParse (pyNatStr n) = some n := by
  by_cases h : n = 0
  · subst h; decide
  · have hdata : (pyNatStr n).data = ((natDigitsRev n).map Nat.digitChar).reverse := by
      simp [pyNatStr, h]
    have hne : (pyNatStr n).data ≠ [] := by
      rw [hdata, natDigitsRev_eq_cons n h]
      simp
    have hall : (pyNatStr n).data.all Char.isDigit = true := by
      rw [List.all_eq_true]
      exact pyNatStr_digits n
    simp only [pyIntParse]
    rw [if_pos ⟨hne, hall⟩]
    congr 1
    rw [hdata, ← List.map_reverse]
    show List.foldl _ 0 _ = n
    rw [foldl_digits ((natDigitsRev n).reverse)
      (fun d hd => natDigitsRevAux_lt10 n n d (List.mem_reverse.mp hd)) 0]
    exact valFold_natDigits n

/-! # Lemmas about `split` on the `":"` separator -/

theorem splitColon_no (l : List Char) (h : ':' ∉ l) :
    splitCharsAux [':'] l.length l = [l] := by
  induction l with
  | nil => rfl
  | cons c cs ih =>
    have hne : c ≠ ':' := fun e => h (by simp [e])
    have hc : (':' == c) = false := by
      rw [beq_eq_false_iff_ne]
      exact fun e => hne e.symm
    simp only [List.length_cons, splitCharsAux, stripBegin, hc, Bool.false_eq_true, if_false]
    rw [ih (fun hm => h (List.mem_cons_of_mem _ hm))]

theorem splitColon_app (a b : List Char) (h : ':' ∉ a) :
    splitCharsAux [':'] (a ++ ':' :: b).length (a ++ ':' :: b) =
      a :: splitCharsAux [':'] b.length b := by
  induction a with
  | nil =>
    show splitCharsAux [':'] (b.length + 1) (':' :: b) = _
    simp [splitCharsAux, stripBegin]
  | cons c cs ih =>
    have hne : c ≠ ':' := fun e => h (by simp [e])
    have hc : (':' == c) = false := by
      rw [beq_eq_false_iff_ne]
      exact fun e => hne e.symm
    show splitCharsAux [':'] ((cs ++ ':' :: b).length + 1) (c :: (cs ++ ':' :: b)) =
      (c :: cs) :: splitCharsAux [':'] b.length b
    simp only [splitCharsAux, stripBegin, hc, Bool.false_eq_true, if_false]
    rw [ih (fun hm => h (List.mem_cons_of_mem _ hm))]

theorem pySplit_wasapi (i : Nat) :
    pySplit ("wasapi:" ++ pyNatStr i) ":" = ["wasapi", pyNatStr i] := by
  have hdata : ("wasapi:" ++ pyNatStr i).data = "wasapi".data ++ ':' :: (pyNatStr i).data := by
    rw [String.data_append]; rfl
  simp only [pySplit, hdata]
  rw [splitColon_app _ _ (by decide), splitColon_no _ (colon_notMem_pyNatStr i)]
  rfl

/-! # Index-sequence lemmas for the enumeration scanners -/

theorem scanLoopback_spec (table : List PyProbe) :
    ∀ i di,
      (scanLoopback table i di).1.map AudioDevice.index =
        List.range' di (scanLoopback table i di).1.length ∧
      (scanLoopback table i di).2.1 = di + (scanLoopback table i di).1.length := by
  induction table with
  | nil => intro i di; simp [scanLoopback]
  | cons p rest ih =>
    intro i di
    cases p with
    | raises => simp [scanLoopback]
    | ok info =>
      by_cases hl : info.isLoopbackDevice = true
      · simp only [scanLoopback, hl, if_true]
        refine ⟨?_, ?_⟩
        · simp only [List.map_cons, List.length_cons, List.range'_succ]
          exact congrArg _ (ih (i + 1) (di + 1)).1
        · simp only [List.length_cons]
          rw [(ih (i + 1) (di + 1)).2]
          omega
      · simp only [scanLoopback, hl, if_false]
        exact ih (i + 1) di

theorem dshowScan_spec (f : String → Option String) (lines : List String) :
    ∀ di,
      (dshowScan f lines di).1.map AudioDevice.index =
        List.range' di (dshowScan f lines di).1.length ∧
      (dshowScan f lines di).2 = di + (dshowScan f lines di).1.length := by
  induction lines with
  | nil => intro di; simp [dshowScan]
  | cons line rest ih =>
    intro di
    by_cases hf : (pyIn "(audio)" line && pyIn "\"" line) = true
    · cases hm : f line with
      | some nm =>
        simp only [dshowScan, hf, hm, if_true]
        refine ⟨?_, ?_⟩
        · simp only [List.map_cons, List.length_cons, List.range'_succ]
          exact congrArg _ (ih (di + 1)).1
        · simp only [List.length_cons]
          rw [(ih (di + 1)).2]
          omega
      | none =>
        simp only [dshowScan, hf, hm, if_true]
        exact ih di
    · simp only [dshowScan, hf, if_false]
      exact ih di

theorem pulseScan_spec (lines : List String) :
    ∀ di,
      (pulseScan lines di).1.map AudioDevice.index =
        List.range' di (pulseScan lines di).1.length ∧
      (pulseScan lines di).2 = di + (pulseScan lines di).1.length := by
  induction lines with
  | nil => intro di; simp [pulseScan]
  | cons line rest ih =>
    intro di
    by_cases hf : pyIn "* " line = true
    · simp only [pulseScan, hf, if_true]
      refine ⟨?_, ?_⟩
      · simp only [List.map_cons, List.length_cons, List.range'_succ]
        exact congrArg _ (ih (di + 1)).1
      · simp only [List.length_cons]
        rw [(ih (di + 1)).2]
        omega
    · simp only [pulseScan, hf, if_false]
      exact ih di

theorem alsaScan_spec (lines : List String) :
    ∀ di,
      (alsaScan lines di).1.map AudioDevice.index =
        List.range' di (alsaScan lines di).1.length ∧
      (alsaScan lines di).2 = di + (alsaScan lines di).1.length := by
  induction lines with
  | nil => intro di; simp [alsaScan]
  | cons line rest ih =>
    intro di
    by_cases hf : pyStrip line ≠ "" ∧ pyStartswith (pyStrip line) " " = false
    · simp only [alsaScan]
      rw [if_pos hf]
      refine ⟨?_, ?_⟩
      · simp only [List.map_cons, List.length_cons, List.range'_succ]
        exact congrArg _ (ih (di + 1)).1
      · simp only [List.length_cons]
        rw [(ih (di + 1)).2]
        omega
    · simp only [alsaScan]
      rw [if_neg hf]
      exact ih di

theorem avfScan_spec (f : String → Option String) (lines : List String) :
    ∀ inAudio di,
      (avfScan f lines inAudio di).1.map AudioDevice.index =
        List.range' di (avfScan f lines inAudio di).1.length ∧
      (avfScan f lines inAudio di).2 = di + (avfScan f lines inAudio di).1.length := by
  induction lines with
  | nil => intro inAudio di; simp [avfScan]
  | cons line rest ih =>
    intro inAudio di
    by_cases h1 : pyIn "AVFoundation audio devices:" line = true
    · simp only [avfScan, h1, if_true]
      exact ih true di
    · by_cases h2 : pyIn "AVFoundation video devices:" line = true
      · simp only [avfScan, h1, h2, if_false, if_true]
        exact ih false di
      · by_cases h3 : (inAudio && pyIn "]" line) = true
        · cases hm : f line with
          | some captured =>
            simp only [avfScan]
            rw [if_neg h1, if_neg h2, if_pos h3, hm]
            refine ⟨?_, ?_⟩
            · simp only [List.map_cons, List.length_cons, List.range'_succ]
              exact congrArg _ (ih inAudio (di + 1)).1
            · simp only [List.length_cons]
              rw [(ih inAudio (di + 1)).2]
              omega
          | none =>
            simp only [avfScan]
            rw [if_neg h1, if_neg h2, if_pos h3, hm]
            exact ih inAudio di
        · simp only [avfScan]
          rw [if_neg h1, if_neg h2, if_neg h3]
          exact ih inAudio di

theorem loopbackHalf_spec (env : Env) :
    (loopbackHalf env).1.map AudioDevice.index =
      List.range' 1 (loopbackHalf env).1.length ∧
    (loopbackHalf env).2.1 = 1 + (loopbackHalf env).1.length := by
  cases h : env.pyaudio with
  | none => simp [loopbackHalf, h]
  | some table =>
    simp only [loopbackHalf, h]
    exact scanLoopback_spec table 0 1

/-- Gluing two index-sequential runs whose second starts where the
first stops. -/
theorem range'_glue (a b : List AudioDevice) (s : Nat)
    (ha : a.map AudioDevice.index = List.range' s a.length)
    (hb : b.map AudioDevice.index = List.range' (s + a.length) b.length) :
    (a ++ b).map AudioDevice.index = List.range' s (a ++ b).length := by
  rw [List.map_append, ha, hb, List.length_append]
  have h := List.range'_append s a.length b.length 1
  rw [one_mul] at h
  rw [h, Nat.add_comm]

/-- Every successful enumeration returns a list whose `index` fields
are `1, 2, 3, ...` in list order, whatever the platform. -/
theorem enum_indices (env : Env) (devs : List AudioDevice)
    (h : enumerate_devices env = .ok devs) :
    devs.map AudioDevice.index = List.range' 1 devs.length := by
  unfold enumerate_devices at h
  cases hp : env.platform with
  | windows =>
    rw [hp] at h
    unfold enumWindows at h
    cases hd : env.dshow with
    | ok text =>
      rw [hd] at h
      injection h with h
      subst h
      have hlb := loopbackHalf_spec env
      have hds := dshowScan_spec env.audioMatch (pySplit text "\n") (loopbackHalf env).2.1
      refine range'_glue _ _ 1 hlb.1 ?_
      rw [← hlb.2]
      exact hds.1
    | toolMissing => rw [hd] at h; exact absurd h (by simp)
    | timedOut =>
      rw [hd] at h
      injection h with h
      subst h
      exact (loopbackHalf_spec env).1
    | raises =>
      rw [hd] at h
      injection h with h
      subst h
      exact (loopbackHalf_spec env).1
  | linux =>
    rw [hp] at h
    unfold enumLinux at h
    cases hl : env.pulse with
    | ok text =>
      simp only [hl] at h
      by_cases he : (pulseScan (pySplit text "\n") 1).1.isEmpty = true
      · rw [if_pos he] at h
        cases ha : env.alsa with
        | ok text2 =>
          rw [ha] at h
          injection h with h
          subst h
          have hstart : (pulseScan (pySplit text "\n") 1).2 = 1 := by
            have := (pulseScan_spec (pySplit text "\n") 1).2
            rw [List.isEmpty_iff] at he
            rw [he] at this
            simpa using this
          rw [hstart]
          exact (alsaScan_spec (pySplit text2 "\n") 1).1
        | toolMissing => rw [ha] at h; exact absurd h (by simp)
        | timedOut => rw [ha] at h; exact absurd h (by simp)
        | raises => rw [ha] at h; exact absurd h (by simp)
      · rw [if_neg he] at h
        injection h with h
        subst h
        exact (pulseScan_spec (pySplit text "\n") 1).1
    | toolMissing => rw [hl] at h; exact absurd h (by simp)
    | timedOut => rw [hl] at h; exact absurd h (by simp)
    | raises => rw [hl] at h; exact absurd h (by simp)
  | darwin =>
    rw [hp] at h
    unfold enumMacos at h
    cases ha : env.avf with
    | ok text =>
      rw [ha] at h
      injection h with h
      subst h
      exact (avfScan_spec env.avfMatch (pySplit text "\n") false 1).1
    | toolMissing => rw [ha] at h; exact absurd h (by simp)
    | timedOut => rw [ha] at h; exact absurd h (by simp)
    | raises => rw [ha] at h; exact absurd h (by simp)
  | other s =>
    rw [hp] at h
    exact absurd h (by simp)

/-- Claim C6: on every supported platform, every successful enumeration
pass assigns `index` values sequentially starting at 1 in list order
(the k-th returned device, counting from 0, has index k + 1); on
Windows this single counter spans the loopback-library half and the
text-probe half. -/
theorem c6_sequential_indices (env : Env) (devs : List AudioDevice)
    (h : enumerate_devices env = .ok devs) (k : Nat) (hk : k < devs.length) :
    devs[k].index = k + 1 := by
  have hm := enum_indices env devs h
  have hq := congrArg (fun l => l[k]?) hm
  simp only at hq
  rw [List.getElem?_eq_getElem (by simpa using hk)] at hq
  rw [List.getElem?_eq_getElem (by simpa using hk)] at hq
  rw [List.getElem_map] at hq
  have hv := Option.some.inj hq
  rw [List.getElem_range'] at hv
  omega

/-! # Provenance lemmas for enumerated devices -/

/-- Every device produced by the loopback scan records the PyAudio index
it came from in its identifier and carries the annotated display name of
the probed info entry. -/
theorem scanLoopback_mem (table : List PyProbe) :
    ∀ i0 di d, d ∈ (scanLoopback table i0 di).1 →
      ∃ j info, table[j]? = some (.ok info) ∧ info.isLoopbackDevice = true ∧
        d.device_id = "wasapi:" ++ pyNatStr (i0 + j) ∧
        d.name = pyReplace info.name " [Loopback]" "" ++ " [System Audio Output]" := by
  induction table with
  | nil => intro i0 di d h; simp [scanLoopback] at h
  | cons p rest ih =>
    intro i0 di d h
    cases p with
    | raises => simp [scanLoopback] at h
    | ok info =>
      by_cases hl : info.isLoopbackDevice = true
      · simp only [scanLoopback, hl, if_true] at h
        rcases List.mem_cons.mp h with h | h
        · subst h
          exact ⟨0, info, by simp, hl, by simp, rfl⟩
        · obtain ⟨j, info2, hj, hlb, hid, hname⟩ := ih (i0 + 1) (di + 1) d h
          refine ⟨j + 1, info2, by simpa using hj, hlb, ?_, hname⟩
          rw [hid, show (i0 + 1) + j = i0 + (j + 1) from by omega]
      · simp only [scanLoopback, hl, if_false] at h
        obtain ⟨j, info2, hj, hlb, hid, hname⟩ := ih (i0 + 1) di d h
        refine ⟨j + 1, info2, by simpa using hj, hlb, ?_, hname⟩
        rw [hid, show (i0 + 1) + j = i0 + (j + 1) from by omega]

/-- Every device produced by the DirectShow scan has a
`"dshow:audio="`-prefixed identifier. -/
theorem dshowScan_mem (f : String → Option String) (lines : List String) :
    ∀ di d, d ∈ (dshowScan f lines di).1 →
      ∃ nm, d.device_id = "dshow:audio=" ++ nm := by
  induction lines with
  | nil => intro di d h; simp [dshowScan] at h
  | cons line rest ih =>
    intro di d h
    by_cases hf : (pyIn "(audio)" line && pyIn "\"" line) = true
    · cases hm : f line with
      | some nm =>
        simp only [dshowScan, hf, hm, if_true] at h
        rcases List.mem_cons.mp h with h | h
        · subst h
          exact ⟨nm, rfl⟩
        · exact ih (di + 1) d h
      | none =>
        simp only [dshowScan, hf, hm, if_true] at h
        exact ih di d h
    · simp only [dshowScan, hf, if_false] at h
      exact ih di d h

/-- On Windows, an enumerated device whose identifier starts with
`"wasapi:"` came from the loopback half, and the probe table entry it
points back to is the successful info record its name was built from. -/
theorem wasapi_origin (env : Env) (devs : List AudioDevice) (d : AudioDevice)
    (hplat : env.platform = .windows)
    (henum : enumerate_devices env = .ok devs)
    (hmem : d ∈ devs)
    (hpre : pyStartswith d.device_id "wasapi:" = true) :
    ∃ table j info,
      env.pyaudio = some table ∧ table[j]? = some (.ok info) ∧
      info.isLoopbackDevice = true ∧
      d.device_id = "wasapi:" ++ pyNatStr j ∧
      d.name = pyReplace info.name " [Loopback]" "" ++ " [System Audio Output]" := by
  unfold enumerate_devices at henum
  rw [hplat] at henum
  unfold enumWindows at henum
  have hdLoop : d ∈ (loopbackHalf env).1 := by
    cases hd : env.dshow with
    | ok text =>
      rw [hd] at henum
      injection henum with henum
      subst henum
      rcases List.mem_append.mp hmem with h | h
      · exact h
      · obtain ⟨nm, hid⟩ := dshowScan_mem env.audioMatch (pySplit text "\n") _ d h
        rw [hid, dshow_id_not_wasapi nm] at hpre
        exact absurd hpre (by simp)
    | toolMissing => rw [hd] at henum; exact absurd henum (by simp)
    | timedOut =>
      rw [hd] at henum
      injection henum with henum
      subst henum
      exact hmem
    | raises =>
      rw [hd] at henum
      injection henum with henum
      subst henum
      exact hmem
  cases hpy : env.pyaudio with
  | none => simp [loopbackHalf, hpy] at hdLoop
  | some table =>
    simp only [loopbackHalf, hpy] at hdLoop
    obtain ⟨j, info, hj, hlb, hid, hname⟩ := scanLoopback_mem table 0 1 d hdLoop
    rw [Nat.zero_add] at hid
    exact ⟨table, j, info, rfl, hj, hlb, hid, hname⟩

/-- An exception during the loopback scan leaves exactly the devices of
the error-free front of the probe table. -/
theorem scanLoopback_clean (table : List PyProbe) :
    ∀ i di, (scanLoopback table i di).1 = (scanLoopback (cleanPyTable table) i di).1 := by
  induction table with
  | nil => intro i di; rfl
  | cons p rest ih =>
    intro i di
    cases p with
    | raises => rfl
    | ok info =>
      have hct : cleanPyTable (.ok info :: rest) = .ok info :: cleanPyTable rest := by
        simp [cleanPyTable, List.takeWhile_cons]
      rw [hct]
      by_cases hl : info.isLoopbackDevice = true
      · simp only [scanLoopback, hl, if_true]
        exact congrArg _ (ih (i + 1) (di + 1))
      · simp only [scanLoopback, hl, if_false]
        exact ih (i + 1) di

/-! # Claim C1 -/

/-- Claim C1 fails on the code: for the loopback variant the
description contains only the device's base name, not the full
enumerated name with its `" [System Audio Output]"` annotation.
Concretely, with one loopback device named `"Speakers [Loopback]"`, the
factory resolves index 1 to the device named
`"Speakers [System Audio Output]"` but returns a source described as
`"System Audio: Speakers"`, which does not contain that name. -/
theorem c1_counterexample : ¬ c1ClaimStatement := by
  intro hclaim
  have h2 := (hclaim envLoopback cfgIdx1 1 [devSpeakers] rfl (by decide)).2
    devSpeakers (by decide)
  obtain ⟨src, hsrc, hcontains⟩ := h2
  have hev : create_from_config envLoopback "local" cfgIdx1 =
      .ok (.wasapiLoopback srcSpeakers) := by
    decide
  rw [hev] at hsrc
  have hsrcEq := Except.ok.inj hsrc
  rw [← hsrcEq] at hcontains
  obtain ⟨a, b, hab⟩ := hcontains
  have hlen := congrArg List.length hab
  simp only [List.length_append] at hlen
  have hL : (AudioSource.get_description (.wasapiLoopback srcSpeakers)).data.length = 22 := by
    decide
  have hR : (devSpeakers.name).data.length = 30 := by decide
  rw [hL, hR] at hlen
  omega

/-- Claim C1 (amended): with `sourceType = "local"` and a device index
present, an absent index fails with the device-not-found `ValueError`;
a resolved device whose identifier is not `"wasapi:"`-prefixed yields a
plain local source whose description contains the device's full name;
and on Windows a `"wasapi:"`-prefixed identifier yields a loopback
source whose description contains the device's base name — the
enumerated name minus the `" [System Audio Output]"` annotation —
rather than the full annotated name. -/
theorem c1_amended (env : Env) (cfg : ConfigBag) (di : Nat) (devs : List AudioDevice)
    (hdi : cfg.device_index = some di)
    (henum : enumerate_devices env = .ok devs) :
    ((devs.find? fun d => d.index == di) = none →
      create_from_config env "local" cfg = .error (.valueError (noDeviceMsg di))) ∧
    (∀ dev, (devs.find? fun d => d.index == di) = some dev →
      pyStartswith dev.device_id "wasapi:" = false →
      ∃ src, create_from_config env "local" cfg = .ok src ∧
        strContainsSub (AudioSource.get_description src) dev.name) ∧
    (env.platform = .windows →
      ∀ dev, (devs.find? fun d => d.index == di) = some dev →
      pyStartswith dev.device_id "wasapi:" = true →
      ∃ src base, create_from_config env "local" cfg = .ok src ∧
        dev.name = base ++ " [System Audio Output]" ∧
        strContainsSub (AudioSource.get_description src) base) := by
  have hred : create_from_config env "local" cfg =
      create_local_source_by_index env di (cfg.sample_rate.getD 48000)
        (cfg.bitrate.getD 128) := by
    simp only [create_from_config]
    rw [if_pos (show pyLower "local" = "local" from by decide), hdi]
  have hget : get_device_by_index env di = .ok (devs.find? fun d => d.index == di) := by
    unfold get_device_by_index
    rw [henum]
  refine ⟨?_, ?_, ?_⟩
  · intro hnone
    rw [hred]
    simp only [create_local_source_by_index, hget, hnone]
  · intro dev hfind hfalse
    rw [hred]
    simp only [create_local_source_by_index, hget, hfind]
    rw [hfalse]
    simp only [Bool.false_eq_true, if_false]
    refine ⟨.localDevice
      { device := dev
        sample_rate := cfg.sample_rate.getD 48000
        bitrate := cfg.bitrate.getD 128 }, rfl, ?_⟩
    exact strContainsSub_of_append "Local Device: " dev.name
  · intro hwin dev hfind htrue
    obtain ⟨table, j, info, hpy, hj, hlb, hid, hname⟩ :=
      wasapi_origin env devs dev hwin henum (List.mem_of_find?_eq_some hfind) htrue
    have hprobe : probeDeviceInfo env j = some info := by
      simp only [probeDeviceInfo, hpy, hj]
    refine ⟨.wasapiLoopback (mkWASAPILoopbackAudioSource env j (cfg.sample_rate.getD 48000)
      (cfg.bitrate.getD 128)), pyReplace info.name " [Loopback]" "", ?_, hname, ?_⟩
    · rw [hred]
      simp only [create_local_source_by_index, hget, hfind]
      rw [hid, if_pos (pyStartswith_append "wasapi:" (pyNatStr j)), pySplit_wasapi]
      rw [show ["wasapi", pyNatStr j].getD 1 "" = pyNatStr j from rfl, pyIntParse_pyNatStr]
    · have hdesc : AudioSource.get_description (.wasapiLoopback
          (mkWASAPILoopbackAudioSource env j (cfg.sample_rate.getD 48000)
            (cfg.bitrate.getD 128))) =
          "System Audio: " ++ pyReplace info.name " [Loopback]" "" := by
        simp only [mkWASAPILoopbackAudioSource, hprobe, AudioSource.get_description]
      rw [hdesc]
      exact strContainsSub_of_append _ _

/-- Witness for the amended claim C1 at a concrete two-device Windows
machine: the microphone's description contains its full name, the
loopback device's description contains its base name, and a stale index
is rejected. -/
theorem c1_amended_witness :
    (∃ src, create_from_config envTwoDevices "local" { device_index := some 2 } = .ok src ∧
      strContainsSub (AudioSource.get_description src) devMic.name) ∧
    (∃ src base,
      create_from_config envTwoDevices "local" { device_index := some 1 } = .ok src ∧
      devSpeakers.name = base ++ " [System Audio Output]" ∧
      strContainsSub (AudioSource.get_description src) base) ∧
    create_from_config envTwoDevices "local" { device_index := some 3 } =
      .error (.valueError (noDeviceMsg 3)) := by
  refine ⟨?_, ?_, ?_⟩
  · exact (c1_amended envTwoDevices { device_index := some 2 } 2 devsTwo rfl
      (by decide)).2.1 devMic (by decide) (by decide)
  · exact (c1_amended envTwoDevices { device_index := some 1 } 1 devsTwo rfl
      (by decide)).2.2 rfl devSpeakers (by decide) (by decide)
  · exact (c1_amended envTwoDevices { device_index := some 3 } 3 devsTwo rfl
      (by decide)).1 (by decide)

/-! # Claim C2 -/

/-- Claim C2: for both stream source types, a config bag without `url`
fails with the invalid-configuration `ValueError`, and any supplied
`url` yields a source whose description contains that exact URL. -/
theorem c2_url_contract (env : Env) (cfg : ConfigBag) (u : String) :
    create_from_config env "icecast" { cfg with url := none } =
      .error (.valueError "Icecast audio source requires \x27url\x27 in config") ∧
    create_from_config env "url" { cfg with url := none } =
      .error (.valueError "URL audio source requires \x27url\x27 in config") ∧
    (∃ src, create_from_config env "icecast" { cfg with url := some u } = .ok src ∧
      strContainsSub (AudioSource.get_description src) u) ∧
    (∃ src, create_from_config env "url" { cfg with url := some u } = .ok src ∧
      strContainsSub (AudioSource.get_description src) u) := by
  refine ⟨rfl, rfl, ?_, ?_⟩
  · exact ⟨.icecast { url := u, bitrate := cfg.bitrate.getD 128 }, rfl,
      strContainsSub_of_append "Icecast Stream: " u⟩
  · exact ⟨.urlStream { url := u, bitrate := cfg.bitrate.getD 128 }, rfl,
      strContainsSub_of_append "URL Stream: " u⟩

/-! # Claim C3 -/

/-- Claim C3 evaluated at the failing input: the claim states the
intent the code's own docstring documents ("Discord expects 3840 bytes
per frame"), but at a 44100 Hz stereo device with an active stream and
a successful capture read, `read()` returns 3836 bytes — `audioop.ratecv`
emits 959 frames for 882 input frames because the fractional carry
state is discarded on every call — neither one full 3840-byte frame nor
empty bytes.  At 48000 Hz (stereo or mono) the full frame is returned,
and an inactive stream or a failed read yields empty bytes. -/
theorem c3_read_frame_size :
    wasapiReadLength 44100 2 true true = 3836 ∧
    wasapiReadLength 48000 2 true true = 3840 ∧
    wasapiReadLength 48000 1 true true = 3840 ∧
    wasapiReadLength 44100 2 false true = 0 ∧
    wasapiReadLength 44100 2 true false = 0 ∧
    ¬ c3ClaimStatement := by
  refine ⟨by decide, by decide, by decide, by decide, by decide, ?_⟩
  intro h
  rcases h 44100 2 true true with h | h <;> revert h <;> decide

/-! # Claim C4 -/

/-- Claim C4 fails on the code: `WASAPILoopbackPCMAudio.cleanup` does
not clear `self._stream` or `self._pyaudio`, so the second of two
consecutive calls releases the stream and the capture-library handle
again. -/
theorem c4_counterexample : ¬ c4ClaimStatement := by
  intro h
  exact absurd (h 2).1 (by decide)

theorem pcmCleanupN_run (n : Nat) :
    ∀ k, pcmCleanupN n
        { hasStream := true, hasPyaudio := true, stopCalls := k,
          closeCalls := k, terminateCalls := k } =
      { hasStream := true, hasPyaudio := true, stopCalls := k + n,
        closeCalls := k + n, terminateCalls := k + n } := by
  induction n with
  | zero => intro k; rfl
  | succ m ih =>
    intro k
    have h1 : pcmCleanupN (m + 1)
        { hasStream := true, hasPyaudio := true, stopCalls := k,
          closeCalls := k, terminateCalls := k } =
        pcmCleanupN m
          { hasStream := true, hasPyaudio := true, stopCalls := k + 1,
            closeCalls := k + 1, terminateCalls := k + 1 } := rfl
    rw [h1, ih (k + 1), show k + 1 + m = k + (m + 1) from by omega]

/-- Claim C4 (amended): `WASAPILoopbackAudioSource.cleanup` only logs,
so it is safe any number of times; one `WASAPILoopbackPCMAudio.cleanup`
call releases the stream (stop + close) and the capture-library handle
exactly once; but because the fields are not cleared, `n` consecutive
calls issue `n` releases of each — every call after the first is a
duplicate release of the already-closed stream and already-terminated
handle. -/
theorem c4_amended (n : Nat) (src : WASAPILoopbackAudioSource) :
    wasapiSourceCleanup src = src ∧
    (pcmCleanup pcmInit).stopCalls = 1 ∧
    (pcmCleanup pcmInit).closeCalls = 1 ∧
    (pcmCleanup pcmInit).terminateCalls = 1 ∧
    (pcmCleanupN n pcmInit).hasStream = true ∧
    (pcmCleanupN n pcmInit).hasPyaudio = true ∧
    (pcmCleanupN n pcmInit).closeCalls = n ∧
    (pcmCleanupN n pcmInit).terminateCalls = n := by
  have h : pcmCleanupN n pcmInit =
      { hasStream := true, hasPyaudio := true, stopCalls := 0 + n,
        closeCalls := 0 + n, terminateCalls := 0 + n } := pcmCleanupN_run n 0
  refine ⟨rfl, rfl, rfl, rfl, ?_, ?_, ?_, ?_⟩ <;> rw [h] <;> simp

/-! # Claim C5 -/

/-- Claim C5 fails on the code: when the `pyaudiowpatch` probe raises
after having yielded a device, the exception is swallowed but the
loopback half keeps the device appended before the failure — its
contribution is not empty. -/
theorem c5_counterexample : ¬ c5ClaimStatement := by
  intro h
  have h1 := (h envPartialFail rfl).1 (by decide)
  exact absurd h1 (by decide)

/-- Claim C5 (amended): in the Windows pass, a missing capture library
leaves the loopback half empty, and an exception during its enumeration
is swallowed with the half contributing exactly the devices discovered
before the failure (the scan of the error-free front of the probe
table); a missing text-probe binary is fatal even when the loopback
half produced devices; a text-probe timeout (or any other text-probe
exception) is swallowed with that half contributing nothing. -/
theorem c5_amended (env : Env) :
    (env.platform = .windows → enumerate_devices env = enumWindows env) ∧
    (env.pyaudio = none → (loopbackHalf env).1 = []) ∧
    (∀ table, env.pyaudio = some table →
      (loopbackHalf env).1 = (scanLoopback (cleanPyTable table) 0 1).1) ∧
    (env.dshow = .toolMissing →
      enumWindows env = .error (.runtimeError ffmpegMissingMsg)) ∧
    (env.dshow = .timedOut → enumWindows env = .ok (loopbackHalf env).1) ∧
    (env.dshow = .raises → enumWindows env = .ok (loopbackHalf env).1) := by
  refine ⟨?_, ?_, ?_, ?_, ?_, ?_⟩
  · intro h; simp only [enumerate_devices, h]
  · intro h; simp only [loopbackHalf, h]
  · intro table h
    simp only [loopbackHalf, h]
    exact scanLoopback_clean table 0 1
  · intro h; simp only [enumWindows, h]
  · intro h; simp only [enumWindows, h]
  · intro h; simp only [enumWindows, h]

/-- Witness for the amended claim C5 at concrete Windows machines. -/
theorem c5_amended_witness :
    enumWindows { envPartialFail with dshow := .timedOut } =
      .ok (loopbackHalf { envPartialFail with dshow := .timedOut }).1 ∧
    enumWindows { envPartialFail with dshow := .toolMissing } =
      .error (.runtimeError ffmpegMissingMsg) ∧
    (loopbackHalf envPartialFail).1 =
      (scanLoopback (cleanPyTable [.ok infoSpeakers, .raises]) 0 1).1 ∧
    enumerate_devices envPartialFail = enumWindows envPartialFail :=
  ⟨(c5_amended _).2.2.2.2.1 rfl, (c5_amended _).2.2.2.1 rfl,
   (c5_amended envPartialFail).2.2.1 [.ok infoSpeakers, .raises] rfl,
   (c5_amended envPartialFail).1 rfl⟩

/-! # Claim C7 -/

theorem charToLower_idem (c : Char) : c.toLower.toLower = c.toLower := by
  unfold Char.toLower
  by_cases h : c.toNat ≥ 65 ∧ c.toNat ≤ 90
  · rw [if_pos h]
    have hv : (c.toNat + 32).isValidChar := by
      left
      have : c.toNat + 32 ≤ 122 := by omega
      omega
    have ht : (Char.ofNat (c.toNat + 32)).toNat = c.toNat + 32 := by
      unfold Char.ofNat
      rw [dif_pos hv]
      rfl
    rw [if_neg]
    rw [ht]
    omega
  · rw [if_neg h, if_neg h]

theorem pyLower_idem (s : String) : pyLower (pyLower s) = pyLower s := by
  simp only [pyLower, List.map_map]
  exact congrArg _ (List.map_congr_left fun c _ => charToLower_idem c)

/-- Claim C7 fails on the code: for an unrecognised type tag the raised
error message interpolates the tag in its original case, so
`create_from_config` on `"FOO"` and on `"foo"` raise `ValueError`s with
different messages. -/
theorem c7_counterexample : ¬ c7ClaimStatement := by
  intro h
  have hx := h envBare "FOO" cfgEmpty
  revert hx
  decide

/-- Claim C7 (amended): `create_from_config` is case-insensitive on the
type tag for the three recognised types — the call behaves identically
to the call on the lower-cased tag, producing the same variant with the
same fields or the same error.  For an unrecognised tag both calls
raise the unknown-type `ValueError`, whose messages differ only in that
each quotes the tag as it was passed. -/
theorem c7_amended (env : Env) (source_type : String) (config : ConfigBag) :
    ((pyLower source_type = "local" ∨ pyLower source_type = "icecast" ∨
        pyLower source_type = "url") →
      create_from_config env source_type config =
        create_from_config env (pyLower source_type) config) ∧
    (pyLower source_type ≠ "local" → pyLower source_type ≠ "icecast" →
      pyLower source_type ≠ "url" →
      create_from_config env source_type config =
        .error (.valueError ("Unknown audio source type: " ++ source_type ++
          ". Expected \x27local\x27, \x27icecast\x27, or \x27url\x27")) ∧
      create_from_config env (pyLower source_type) config =
        .error (.valueError ("Unknown audio source type: " ++ pyLower source_type ++
          ". Expected \x27local\x27, \x27icecast\x27, or \x27url\x27"))) := by
  have e1 : pyLower "local" = "local" := by decide
  have e2 : pyLower "icecast" = "icecast" := by decide
  have e3 : pyLower "url" = "url" := by decide
  constructor
  · rintro (h | h | h) <;> simp [create_from_config, pyLower_idem, h, e1, e2, e3]
  · intro h1 h2 h3
    constructor <;> simp [create_from_config, pyLower_idem, h1, h2, h3]

/-- Witness for the amended claim C7: `"ICECAST"` behaves exactly like
`"icecast"`, and `"FOO"` raises the unknown-type error quoting `"FOO"`. -/
theorem c7_amended_witness :
    create_from_config envBare "ICECAST" { cfgEmpty with url := some "http://h:8000/live" } =
      create_from_config envBare "icecast" { cfgEmpty with url := some "http://h:8000/live" } ∧
    create_from_config envBare "FOO" cfgEmpty =
      .error (.valueError
        "Unknown audio source type: FOO. Expected \x27local\x27, \x27icecast\x27, or \x27url\x27") :=
  ⟨(c7_amended envBare "ICECAST" { cfgEmpty with url := some "http://h:8000/live" }).1
      (Or.inr (Or.inl (by decide))),
   ((c7_amended envBare "FOO" cfgEmpty).2 (by decide) (by decide) (by decide)).1⟩

/-! # Claim C8 -/

/-- Claim C8: a `play` command arriving while the voice client is
connected and already playing sends exactly the literal message
`"Already playing audio."` and returns without asking the audio source
for a playable handle and without starting a second playback; the voice
state is unchanged. -/
theorem c8_already_playing (ctx : PlayCtx) (description : String) :
    playCommand (some { connected := true, playing := true }) ctx description =
      { messages := ["Already playing audio."], handleRequested := false,
        playStarted := false, voice := some { connected := true, playing := true } } :=
  rfl

/-! # Claim C9 -/

/-- Claim C9: `IcecastStreamReader.close()` is safe in every state —
including before any `connect()` and repeatedly — leaves
`is_connected() = false`, clears both the response and the session, is
idempotent (a second call changes nothing and issues no further release
call), and before any `connect()` it releases nothing at all. -/
theorem c9_close_safe (s : SRState) :
    sr_is_connected (srClose s) = false ∧
    (srClose s).response = false ∧
    (srClose s).session = false ∧
    srClose (srClose s) = srClose s ∧
    (srClose srInit).respCloseCalls = 0 ∧
    (srClose srInit).sessCloseCalls = 0 := by
  obtain ⟨sess, resp, conn, rc, sc⟩ := s
  cases sess <;> cases resp <;>
    exact ⟨rfl, rfl, rfl, rfl, rfl, rfl⟩

/-! # Claim C10 -/

/-- Claim C10: the loopback source constructor never rejects a device
index over a failing probe — whenever probing the capture library for
the device info raises (library missing, index unknown, or the call
failing), the error is swallowed and the source falls back to device
sample rate 48000 Hz, 2 channels, and the name `"Unknown Device"`. -/
theorem c10_probe_failure_fallback (env : Env) (device_index sample_rate bitrate : Nat)
    (h : probeDeviceInfo env device_index = none) :
    mkWASAPILoopbackAudioSource env device_index sample_rate bitrate =
      { device_index := device_index, sample_rate := sample_rate, bitrate := bitrate,
        device_name := "Unknown Device", device_sample_rate := 48000,
        device_channels := 2 } := by
  simp only [mkWASAPILoopbackAudioSource, h]

/-- Witness for claim C10 on a machine without the capture library. -/
theorem c10_witness :
    probeDeviceInfo envBare 5 = none ∧
    mkWASAPILoopbackAudioSource envBare 5 48000 128 =
      { device_index := 5, sample_rate := 48000, bitrate := 128,
        device_name := "Unknown Device", device_sample_rate := 48000,
        device_channels := 2 } :=
  ⟨rfl, c10_probe_failure_fallback envBare 5 48000 128 rfl⟩

/-- Witness for claim C6 on a concrete Windows machine whose pass spans
both halves: the second device (a DirectShow microphone following a
loopback device) carries index 2. -/
theorem c6_witness :
    enumerate_devices envTwoDevices = .ok devsTwo ∧
    (devsTwo.get ⟨1, by decide⟩).index = 2 :=
  ⟨by decide, c6_sequential_indices envTwoDevices devsTwo (by decide) 1 (by decide)⟩
